import Mathlib

/-!
Verification of the taglib-rs wrapper (`src/lib.rs`) against its design
specification.

The Rust code is a safe wrapper over the C taglib engine.  We shallowly embed
it here:

* Rust byte buffers (`*mut c_char` contents, `CString`, `CStr`) become
  `List Nat` of byte values; Rust `String`/`&str` become Lean `String`.
* The UTF-8 codec below models Rust's `str::from_utf8` validation /
  `String`'s UTF-8 byte representation (RFC 3629: shortest form only,
  surrogates rejected, max U+10FFFF).  Bit shifts and masks of the byte-level
  codec are rendered arithmetically (`c >>> 6` as `c / 64`,
  `c &&& 0x3F` as `c % 64`, `0x80 ||| x` as `0x80 + x` for `x < 64`).
* Calls into the foreign engine are recorded in a trace (`EngineCall`), and
  the engine's responses are parameters (`Engine`), since the engine is an
  opaque external collaborator.
-/

namespace TagLibRs

/-- UTF-8 encoding of one Unicode scalar value (Rust `char::encode_utf8`). -/
def utf8EncodeChar (c : Nat) : List Nat :=
  if c < 0x80 then [c]
  else if c < 0x800 then
    [0xC0 + c / 64, 0x80 + c % 64]
  else if c < 0x10000 then
    [0xE0 + c / 4096, 0x80 + (c / 64) % 64, 0x80 + c % 64]
  else
    [0xF0 + c / 262144, 0x80 + (c / 4096) % 64, 0x80 + (c / 64) % 64, 0x80 + c % 64]

/-- UTF-8 encoding of a list of characters (Rust `str::as_bytes` of a `&str`
holding these characters). -/
def utf8Encode : List Char → List Nat
  | [] => []
  | c :: cs => utf8EncodeChar c.toNat ++ utf8Encode cs

/-- UTF-8 decoding with full validation (Rust `str::from_utf8`): rejects
stray continuation bytes, overlong forms, surrogates and anything above
U+10FFFF.  Returns `none` exactly when Rust's `from_utf8` returns `Err`. -/
def utf8Decode : List Nat → Option (List Char)
  | [] => some []
  | b0 :: rest =>
    if b0 < 0x80 then
      (utf8Decode rest).map (fun cs => Char.ofNat b0 :: cs)
    else
      match rest with
      | [] => none
      | b1 :: rest2 =>
        if 0xC2 ≤ b0 ∧ b0 ≤ 0xDF then
          if 0x80 ≤ b1 ∧ b1 ≤ 0xBF then
            (utf8Decode rest2).map
              (fun cs => Char.ofNat ((b0 - 0xC0) * 64 + (b1 - 0x80)) :: cs)
          else none
        else
          match rest2 with
          | [] => none
          | b2 :: rest3 =>
            if 0xE0 ≤ b0 ∧ b0 ≤ 0xEF then
              if (if b0 = 0xE0 then 0xA0 else 0x80) ≤ b1 ∧
                  b1 ≤ (if b0 = 0xED then 0x9F else 0xBF) ∧
                  0x80 ≤ b2 ∧ b2 ≤ 0xBF then
                (utf8Decode rest3).map
                  (fun cs =>
                    Char.ofNat ((b0 - 0xE0) * 4096 + (b1 - 0x80) * 64 + (b2 - 0x80)) :: cs)
              else none
            else
              match rest3 with
              | [] => none
              | b3 :: rest4 =>
                if 0xF0 ≤ b0 ∧ b0 ≤ 0xF4 then
                  if (if b0 = 0xF0 then 0x90 else 0x80) ≤ b1 ∧
                      b1 ≤ (if b0 = 0xF4 then 0x8F else 0xBF) ∧
                      0x80 ≤ b2 ∧ b2 ≤ 0xBF ∧ 0x80 ≤ b3 ∧ b3 ≤ 0xBF then
                    (utf8Decode rest4).map
                      (fun cs =>
                        Char.ofNat ((b0 - 0xF0) * 262144 + (b1 - 0x80) * 4096 +
                          (b2 - 0x80) * 64 + (b3 - 0x80)) :: cs)
                  else none
                else none

/-- Rust `std::ffi::NulError`: records the position of the first interior
NUL byte found by `CString::new`. -/
structure NulError where
  nulPosition : Nat
deriving DecidableEq, Repr

/-- Rust `std::str::Utf8Error` as used by the wrapper: the wrapper never
inspects its payload, only propagates it. -/
inductive Utf8Error where
  | mk
deriving DecidableEq, Repr

/-- `CString::new` on a byte buffer: fails with `NulError` at the index of
the first interior NUL byte, otherwise yields the same bytes (the
NUL-terminated allocation exposes exactly these bytes through `as_ptr`). -/
def cstringNewBytes (bytes : List Nat) : Except NulError (List Nat) :=
  match bytes.findIdx? (fun b => b == 0) with
  | some i => Except.error ⟨i⟩
  | none => Except.ok bytes

/-- `CString::new` on a Rust string: checks the string's UTF-8 bytes. -/
def cstringNew (s : String) : Except NulError (List Nat) :=
  cstringNewBytes (utf8Encode s.data)

/-- `CStr::from_ptr` at a non-null pointer into `buffer`: the byte slice up
to (excluding) the first NUL terminator. -/
def cstrBytes (buffer : List Nat) : List Nat :=
  buffer.takeWhile (fun b => b != 0)

/-- `CStr::to_str`: UTF-8 validation of the slice, producing an owned
string on success (`.map (|s| s.to_owned())`). -/
def cstrToStr (bytes : List Nat) : Except Utf8Error String :=
  match utf8Decode bytes with
  | some cs => Except.ok (String.mk cs)
  | none => Except.error Utf8Error.mk

/-- The five text fields of a tag. -/
inductive TextField where
  | title | artist | album | fieldComment | genre
deriving DecidableEq, Repr

/-- The three numeric fields read by the wrapper. -/
inductive NumField where
  | year | track | bpm
deriving DecidableEq, Repr

/-- One call into the foreign taglib engine.  Operations of the wrapper
return, next to their result, the list of engine calls they perform, in
order. -/
inductive EngineCall where
  | setStringManagement (enabled : Bool)
  | fileNew (path : List Nat)
  | fileIsValid (handle : Nat)
  | fileTag (handle : Nat)
  | fileSave (handle : Nat)
  | fileFree (handle : Nat)
  | tagReadText (f : TextField)
  | tagWriteText (f : TextField) (bytes : List Nat)
  | tagReadNum (f : NumField)
  | tagWriteNum (f : NumField) (v : Nat)
  | freeBuffer
deriving DecidableEq, Repr

/-- The foreign engine as a black-box oracle: its responses to the calls the
wrapper makes.  `c_int` results are `Int`, pointers are `Option Nat`
(`none` = null), buffers are `Option (List Nat)` (`none` = null pointer). -/
structure Engine where
  /-- `taglib_file_new`: null or a fresh file handle. -/
  openFile : List Nat → Option Nat
  /-- `taglib_file_is_valid`: a C truth value (0 = invalid). -/
  isValidResult : Nat → Int
  /-- `taglib_file_tag`: the tag handle of a file handle. -/
  tagOf : Nat → Nat
  /-- `taglib_file_save`: a C truth value (0 = failure). -/
  saveResult : Nat → Int
  /-- `taglib_tag_title` &c.: the buffer returned for a text-field read. -/
  readText : Nat → TextField → Option (List Nat)
  /-- `taglib_tag_year` &c.: the value returned for a numeric-field read. -/
  readNum : Nat → NumField → Nat

/-- The `TagLibTag` struct: wraps the raw tag handle. -/
structure TagLibTag where
  tag : Nat
deriving DecidableEq, Repr

/-- The `TagLibFile` struct: the raw file handle and the tag constructed at
open time. -/
structure TagLibFile where
  file_handle : Nat
  tag : TagLibTag
deriving DecidableEq, Repr

/-- The `FileError` enum. -/
inductive FileError where
  | OpenFailure
  | SaveFailure
  | PathAsString
  | NullPathString (e : NulError)
  | InvalidTagFile
deriving DecidableEq, Repr

/-- `TagLibTag::from_ptr`. -/
def TagLibTag.from_ptr (ptr : Nat) : TagLibTag := ⟨ptr⟩

/-- `TagLibFile::new`, embedded line by line from `src/lib.rs:36-69`:
path → `to_str` (UTF-8 check, `PathAsString` on failure) → `CString::new`
(interior-NUL check, `NullPathString` on failure) → set string management →
`taglib_file_new` (null → `OpenFailure`) → `taglib_file_is_valid`
(0 → `InvalidTagFile`, returned directly) → `taglib_file_tag` → `Ok`.
The second component is the trace of engine calls performed. -/
def TagLibFile.new (eng : Engine) (path : List Nat) :
    Except FileError TagLibFile × List EngineCall :=
  if (utf8Decode path).isSome then
    match cstringNewBytes path with
    | Except.error e => (Except.error (FileError.NullPathString e), [])
    | Except.ok cs_filename =>
      match eng.openFile cs_filename with
      | none =>
        (Except.error FileError.OpenFailure,
         [EngineCall.setStringManagement false, EngineCall.fileNew cs_filename])
      | some file_ptr =>
        if eng.isValidResult file_ptr = 0 then
          (Except.error FileError.InvalidTagFile,
           [EngineCall.setStringManagement false, EngineCall.fileNew cs_filename,
            EngineCall.fileIsValid file_ptr])
        else
          (Except.ok ⟨file_ptr, TagLibTag.from_ptr (eng.tagOf file_ptr)⟩,
           [EngineCall.setStringManagement false, EngineCall.fileNew cs_filename,
            EngineCall.fileIsValid file_ptr, EngineCall.fileTag file_ptr])
  else
    (Except.error FileError.PathAsString, [])

/-- `TagLibFile::save`: calls `taglib_file_save`; status 0 means
`SaveFailure`.  It takes `&self`: the returned `TagLibFile` is the (unchanged)
in-memory state after the call. -/
def TagLibFile.save (eng : Engine) (file : TagLibFile) :
    Except FileError Unit × TagLibFile × List EngineCall :=
  if eng.saveResult file.file_handle = 0 then
    (Except.error FileError.SaveFailure, file, [EngineCall.fileSave file.file_handle])
  else
    (Except.ok (), file, [EngineCall.fileSave file.file_handle])

/-- `TagLibFile::tag`: returns the stored tag (in Rust, as a borrow scoped
to the file). -/
def TagLibFile.tagAccessor (file : TagLibFile) : TagLibTag := file.tag

/-- `Drop for TagLibFile`: the engine calls performed on drop. -/
def TagLibFile.dropCalls (file : TagLibFile) : List EngineCall :=
  [EngineCall.fileFree file.file_handle]

/-- `TagLibTag::read_and_parse`: `CStr::from_ptr` on the buffer, UTF-8
validation into an owned string, then `taglib_free` on the buffer
(unconditionally — the free is straight-line code after the decode attempt),
then return the decode result. -/
def read_and_parse (buffer : List Nat) : Except Utf8Error String × List EngineCall :=
  let str_res := cstrToStr (cstrBytes buffer)
  (str_res, [EngineCall.freeBuffer])

/-- Shared shape of the five text read accessors (`title`, `artist`, …):
one engine read yielding a raw buffer pointer, passed straight to
`read_and_parse` with no null check.  A null buffer (`none`) is undefined
behaviour in the Rust code, modelled as an undefined (`none`) result. -/
def TagLibTag.readTextField (eng : Engine) (t : TagLibTag) (f : TextField) :
    Option (Except Utf8Error String × List EngineCall) :=
  (eng.readText t.tag f).map (fun buffer =>
    let r := read_and_parse buffer
    (r.1, EngineCall.tagReadText f :: r.2))

/-- `TagLibTag::title`. -/
def TagLibTag.title (eng : Engine) (t : TagLibTag) :
    Option (Except Utf8Error String × List EngineCall) :=
  t.readTextField eng TextField.title

/-- `TagLibTag::artist`. -/
def TagLibTag.artist (eng : Engine) (t : TagLibTag) :
    Option (Except Utf8Error String × List EngineCall) :=
  t.readTextField eng TextField.artist

/-- `TagLibTag::album`. -/
def TagLibTag.album (eng : Engine) (t : TagLibTag) :
    Option (Except Utf8Error String × List EngineCall) :=
  t.readTextField eng TextField.album

/-- `TagLibTag::comment`. -/
def TagLibTag.commentField (eng : Engine) (t : TagLibTag) :
    Option (Except Utf8Error String × List EngineCall) :=
  t.readTextField eng TextField.fieldComment

/-- `TagLibTag::genre`. -/
def TagLibTag.genre (eng : Engine) (t : TagLibTag) :
    Option (Except Utf8Error String × List EngineCall) :=
  t.readTextField eng TextField.genre

/-- Shared shape of the three numeric read accessors: the engine value with
the sentinel `0` mapped to `none`. -/
def TagLibTag.readNumField (eng : Engine) (t : TagLibTag) (f : NumField) : Option Nat :=
  match eng.readNum t.tag f with
  | 0 => none
  | v => some v

/-- `TagLibTag::year`. -/
def TagLibTag.year (eng : Engine) (t : TagLibTag) : Option Nat :=
  t.readNumField eng NumField.year

/-- `TagLibTag::track`. -/
def TagLibTag.track (eng : Engine) (t : TagLibTag) : Option Nat :=
  t.readNumField eng NumField.track

/-- `TagLibTag::bpm`. -/
def TagLibTag.bpm (eng : Engine) (t : TagLibTag) : Option Nat :=
  t.readNumField eng NumField.bpm

/-- The text-field store the engine keeps for one tag: the bytes most
recently written to each field (without terminator). -/
def TagState := TextField → List Nat

/-- Modelled from the spec: `engine.write_field` (§6, backing
`taglib_tag_set_title` &c., whose body lives in the out-of-scope engine)
"copies text internally; no aliasing persists after the call returns". -/
def engineWriteText (st : TagState) (f : TextField) (bytes : List Nat) : TagState :=
  fun g => if g = f then bytes else st g

/-- Modelled from the spec: `engine.read_field` (§6, backing
`taglib_tag_title` &c.) returns the field's current text as a transient
sentinel-terminated buffer. -/
def engineReadText (st : TagState) (f : TextField) : List Nat :=
  st f ++ [0]

/-- Shared shape of the five text write accessors (`set_title`, … —
`src/lib.rs:182-225`): `CString::new(value)` and, only on success, one
engine write with the encoded bytes.  Returns the result, the engine store
after the call, and the trace of engine calls. -/
def TagLibTag.setTextField (f : TextField) (value : String) (st : TagState) :
    Except NulError Unit × TagState × List EngineCall :=
  match cstringNew value with
  | Except.error e => (Except.error e, st, [])
  | Except.ok bytes =>
    (Except.ok (), engineWriteText st f bytes, [EngineCall.tagWriteText f bytes])

/-- `TagLibTag::set_title`. -/
def TagLibTag.set_title (value : String) (st : TagState) :
    Except NulError Unit × TagState × List EngineCall :=
  TagLibTag.setTextField TextField.title value st

/-- `TagLibTag::set_artist`. -/
def TagLibTag.set_artist (value : String) (st : TagState) :
    Except NulError Unit × TagState × List EngineCall :=
  TagLibTag.setTextField TextField.artist value st

/-- `TagLibTag::set_album`. -/
def TagLibTag.set_album (value : String) (st : TagState) :
    Except NulError Unit × TagState × List EngineCall :=
  TagLibTag.setTextField TextField.album value st

/-- `TagLibTag::set_comment`. -/
def TagLibTag.set_comment (value : String) (st : TagState) :
    Except NulError Unit × TagState × List EngineCall :=
  TagLibTag.setTextField TextField.fieldComment value st

/-- `TagLibTag::set_genre`. -/
def TagLibTag.set_genre (value : String) (st : TagState) :
    Except NulError Unit × TagState × List EngineCall :=
  TagLibTag.setTextField TextField.genre value st

/-- A text read accessor run against the engine contract store: the engine
hands back the field's current bytes, sentinel-terminated, and the wrapper
runs `read_and_parse` on them.  This is `TagLibTag::title` &c. composed with
the documented engine read contract, for stating the write-then-read law. -/
def TagLibTag.getTextField (f : TextField) (st : TagState) :
    Except Utf8Error String × List EngineCall :=
  let r := read_and_parse (engineReadText st f)
  (r.1, EngineCall.tagReadText f :: r.2)

/-! ### Concrete engines and states used by claim witnesses -/

/-- An empty engine text-field store. -/
def emptyTagState : TagState := fun _ => []

/-- An engine whose open succeeds (handle 7) but whose validity check
reports 0: the `InvalidTagFile` scenario. -/
def engC1 : Engine where
  openFile := fun _ => some 7
  isValidResult := fun _ => 0
  tagOf := fun _ => 0
  saveResult := fun _ => 1
  readText := fun _ _ => some [0]
  readNum := fun _ _ => 0

/-- An engine whose open and validity check both succeed. -/
def engC2 : Engine where
  openFile := fun _ => some 7
  isValidResult := fun _ => 1
  tagOf := fun _ => 3
  saveResult := fun _ => 1
  readText := fun _ _ => some [0]
  readNum := fun _ _ => 0

/-- An engine returning the valid buffer "h" (NUL-terminated) on text reads. -/
def engC3 : Engine where
  openFile := fun _ => some 7
  isValidResult := fun _ => 1
  tagOf := fun _ => 3
  saveResult := fun _ => 1
  readText := fun _ _ => some [104, 0]
  readNum := fun _ _ => 0

/-- An arbitrary engine for the open-path-error witness. -/
def engC8 : Engine where
  openFile := fun _ => some 7
  isValidResult := fun _ => 1
  tagOf := fun _ => 3
  saveResult := fun _ => 1
  readText := fun _ _ => some [0]
  readNum := fun _ _ => 0

/-- An engine returning a non-null but invalidly-encoded buffer on text
reads. -/
def engC10 : Engine where
  openFile := fun _ => some 7
  isValidResult := fun _ => 1
  tagOf := fun _ => 3
  saveResult := fun _ => 1
  readText := fun _ _ => some [0xFF, 0]
  readNum := fun _ _ => 0

/-! ### Unfolding lemmas for the UTF-8 decoder, one per byte-length shape -/

theorem utf8Decode_cons1 (b0 : Nat) (rest : List Nat) (h : b0 < 0x80) :
    utf8Decode (b0 :: rest) = (utf8Decode rest).map (fun cs => Char.ofNat b0 :: cs) := by
  rw [utf8Decode.eq_def]
  dsimp only
  rw [if_pos h]

theorem utf8Decode_cons2 (b0 b1 : Nat) (rest : List Nat)
    (h0 : 0xC2 ≤ b0) (h0' : b0 ≤ 0xDF) (h1 : 0x80 ≤ b1) (h1' : b1 ≤ 0xBF) :
    utf8Decode (b0 :: b1 :: rest) =
      (utf8Decode rest).map (fun cs => Char.ofNat ((b0 - 0xC0) * 64 + (b1 - 0x80)) :: cs) := by
  rw [utf8Decode.eq_def]
  dsimp only
  rw [if_neg (by omega), if_pos (⟨h0, h0'⟩ : 0xC2 ≤ b0 ∧ b0 ≤ 0xDF),
    if_pos (⟨h1, h1'⟩ : 0x80 ≤ b1 ∧ b1 ≤ 0xBF)]

theorem utf8Decode_cons3 (b0 b1 b2 : Nat) (rest : List Nat)
    (h0 : 0xE0 ≤ b0) (h0' : b0 ≤ 0xEF)
    (h1 : (if b0 = 0xE0 then 0xA0 else 0x80) ≤ b1)
    (h1' : b1 ≤ (if b0 = 0xED then 0x9F else 0xBF))
    (h2 : 0x80 ≤ b2) (h2' : b2 ≤ 0xBF) :
    utf8Decode (b0 :: b1 :: b2 :: rest) =
      (utf8Decode rest).map
        (fun cs => Char.ofNat ((b0 - 0xE0) * 4096 + (b1 - 0x80) * 64 + (b2 - 0x80)) :: cs) := by
  rw [utf8Decode.eq_def]
  dsimp only
  rw [if_neg (by omega), if_neg (by omega),
    if_pos (⟨h0, h0'⟩ : 0xE0 ≤ b0 ∧ b0 ≤ 0xEF),
    if_pos (⟨h1, h1', h2, h2'⟩ :
      (if b0 = 0xE0 then 0xA0 else 0x80) ≤ b1 ∧
        b1 ≤ (if b0 = 0xED then 0x9F else 0xBF) ∧ 0x80 ≤ b2 ∧ b2 ≤ 0xBF)]

theorem utf8Decode_cons4 (b0 b1 b2 b3 : Nat) (rest : List Nat)
    (h0 : 0xF0 ≤ b0) (h0' : b0 ≤ 0xF4)
    (h1 : (if b0 = 0xF0 then 0x90 else 0x80) ≤ b1)
    (h1' : b1 ≤ (if b0 = 0xF4 then 0x8F else 0xBF))
    (h2 : 0x80 ≤ b2) (h2' : b2 ≤ 0xBF) (h3 : 0x80 ≤ b3) (h3' : b3 ≤ 0xBF) :
    utf8Decode (b0 :: b1 :: b2 :: b3 :: rest) =
      (utf8Decode rest).map
        (fun cs => Char.ofNat ((b0 - 0xF0) * 262144 + (b1 - 0x80) * 4096 +
          (b2 - 0x80) * 64 + (b3 - 0x80)) :: cs) := by
  rw [utf8Decode.eq_def]
  dsimp only
  rw [if_neg (by omega), if_neg (by omega), if_neg (by omega),
    if_pos (⟨h0, h0'⟩ : 0xF0 ≤ b0 ∧ b0 ≤ 0xF4),
    if_pos (⟨h1, h1', h2, h2', h3, h3'⟩ :
      (if b0 = 0xF0 then 0x90 else 0x80) ≤ b1 ∧
        b1 ≤ (if b0 = 0xF4 then 0x8F else 0xBF) ∧
        0x80 ≤ b2 ∧ b2 ≤ 0xBF ∧ 0x80 ≤ b3 ∧ b3 ≤ 0xBF)]

/-! ### Decode-of-encode round trip -/

/-- Decoding the encoding of one character recovers that character and
continues with the remaining bytes. -/
theorem utf8Decode_encodeChar (c : Char) (rest : List Nat) :
    utf8Decode (utf8EncodeChar c.toNat ++ rest) =
      (utf8Decode rest).map (fun cs => c :: cs) := by
  have hv : c.toNat < 0xD800 ∨ (0xE000 ≤ c.toNat ∧ c.toNat < 0x110000) := c.valid
  have hofn : Char.ofNat c.toNat = c := Char.ofNat_toNat c
  set n := c.toNat with hn
  rcases Nat.lt_or_ge n 0x80 with h1 | h1
  · rw [utf8EncodeChar, if_pos h1]
    simp only [List.cons_append, List.nil_append]
    rw [utf8Decode_cons1 n rest h1, hofn]
  · rcases Nat.lt_or_ge n 0x800 with h2 | h2
    · rw [utf8EncodeChar, if_neg (by omega), if_pos h2]
      simp only [List.cons_append, List.nil_append]
      rw [utf8Decode_cons2 _ _ rest (by omega) (by omega) (by omega) (by omega)]
      simp only [show (0xC0 + n / 64 - 0xC0) * 64 + (0x80 + n % 64 - 0x80) = n by omega, hofn]
    · rcases Nat.lt_or_ge n 0x10000 with h3 | h3
      · rw [utf8EncodeChar, if_neg (by omega), if_neg (by omega), if_pos h3]
        simp only [List.cons_append, List.nil_append]
        rw [utf8Decode_cons3 _ _ _ rest (by omega) (by omega)
          (by split <;> omega) (by split <;> omega) (by omega) (by omega)]
        simp only [show (0xE0 + n / 4096 - 0xE0) * 4096 +
          (0x80 + n / 64 % 64 - 0x80) * 64 + (0x80 + n % 64 - 0x80) = n by omega, hofn]
      · rw [utf8EncodeChar, if_neg (by omega), if_neg (by omega), if_neg (by omega)]
        simp only [List.cons_append, List.nil_append]
        rw [utf8Decode_cons4 _ _ _ _ rest (by omega) (by omega)
          (by split <;> omega) (by split <;> omega)
          (by omega) (by omega) (by omega) (by omega)]
        simp only [show (0xF0 + n / 262144 - 0xF0) * 262144 +
          (0x80 + n / 4096 % 64 - 0x80) * 4096 +
          (0x80 + n / 64 % 64 - 0x80) * 64 + (0x80 + n % 64 - 0x80) = n by omega, hofn]

/-- Decoding the encoding of a character list, followed by any byte tail,
recovers the characters and decodes the tail. -/
theorem utf8Decode_encode_append (s : List Char) (rest : List Nat) :
    utf8Decode (utf8Encode s ++ rest) = (utf8Decode rest).map (fun cs => s ++ cs) := by
  induction s with
  | nil =>
    simp [utf8Encode]
  | cons c cs ih =>
    rw [utf8Encode, List.append_assoc, utf8Decode_encodeChar c, ih]
    cases utf8Decode rest <;> simp

/-- `str::from_utf8` is a left inverse of UTF-8 encoding. -/
theorem utf8Decode_encode (s : List Char) : utf8Decode (utf8Encode s) = some s := by
  have h := utf8Decode_encode_append s []
  rw [List.append_nil] at h
  rw [h, show utf8Decode [] = some [] from rfl]
  simp

/-! ### Marshalling helper lemmas -/

theorem takeWhile_append_zero (l : List Nat) (h : 0 ∉ l) :
    (l ++ [0]).takeWhile (fun b => b != 0) = l := by
  induction l with
  | nil => simp [List.takeWhile]
  | cons a t ih =>
    have ha : a ≠ 0 := fun hh => h (hh ▸ List.mem_cons_self a t)
    have ht : 0 ∉ t := fun hh => h (List.mem_cons_of_mem a hh)
    simp only [List.cons_append, List.takeWhile_cons]
    rw [if_pos (by simpa using ha), ih ht]

theorem findIdx?_zero_eq_none (l : List Nat) (h : 0 ∉ l) :
    l.findIdx? (fun b => b == 0) = none := by
  rw [List.findIdx?_eq_none_iff]
  intro x hx
  have : x ≠ 0 := fun hh => h (hh ▸ hx)
  simpa using this

/-- `CString::new` succeeds on NUL-free bytes and exposes exactly them. -/
theorem cstringNewBytes_ok (bytes : List Nat) (h : 0 ∉ bytes) :
    cstringNewBytes bytes = Except.ok bytes := by
  rw [cstringNewBytes, findIdx?_zero_eq_none bytes h]

/-- Structure eta for Rust `String`: rebuilding a string from its characters
is the identity. -/
theorem stringMkData (s : String) : String.mk s.data = s := rfl

/-- Decoding a string's own UTF-8 bytes recovers the string. -/
theorem cstrToStr_encode (s : String) : cstrToStr (utf8Encode s.data) = Except.ok s := by
  rw [cstrToStr, utf8Decode_encode]

/-! ### Claim theorems -/

/-- Claim C9: for every tag view, each numeric read accessor (`year`,
`track`, `bpm`) returns `none` exactly when the engine's value is the
sentinel zero and `some v` for every other value `v`; in particular no
numeric accessor ever returns `some 0`, and the accessors are total (no
error or panic path). -/
theorem C9_numeric_sentinel (eng : Engine) (t : TagLibTag) (f : NumField) :
    (TagLibTag.readNumField eng t f = none ↔ eng.readNum t.tag f = 0) ∧
    (∀ v, TagLibTag.readNumField eng t f = some v ↔ eng.readNum t.tag f = v ∧ v ≠ 0) ∧
    TagLibTag.readNumField eng t f ≠ some 0 ∧
    TagLibTag.year eng t = TagLibTag.readNumField eng t NumField.year ∧
    TagLibTag.track eng t = TagLibTag.readNumField eng t NumField.track ∧
    TagLibTag.bpm eng t = TagLibTag.readNumField eng t NumField.bpm := by
  refine ⟨?_, ?_, ?_, rfl, rfl, rfl⟩ <;>
    · rw [TagLibTag.readNumField]
      cases hv : eng.readNum t.tag f <;> simp [hv]

/-- Claim C6: `save()` returns `SaveFailure` iff the engine's persist call
returns 0, success otherwise; the in-memory `TagLibFile` state is unchanged
in both outcomes, and the file resource is not released (no `fileFree` in the
trace), so the caller may retry. -/
theorem C6_save_iff_engine_status (eng : Engine) (file : TagLibFile) :
    ((TagLibFile.save eng file).1 = Except.error FileError.SaveFailure ↔
      eng.saveResult file.file_handle = 0) ∧
    ((TagLibFile.save eng file).1 = Except.ok () ↔
      eng.saveResult file.file_handle ≠ 0) ∧
    (TagLibFile.save eng file).2.1 = file ∧
    (∀ h, EngineCall.fileFree h ∉ (TagLibFile.save eng file).2.2) := by
  rw [TagLibFile.save]
  by_cases hs : eng.saveResult file.file_handle = 0
  · rw [if_pos hs]
    refine ⟨by simp [hs], by simp [hs], rfl, ?_⟩
    intro h
    simp
  · rw [if_neg hs]
    refine ⟨by simp [hs], by simp [hs], rfl, ?_⟩
    intro h
    simp

/-- Claim C3: every string read accessor, on any buffer the engine returns,
releases the buffer through the engine's deallocator exactly once — its
engine-call trace contains exactly one `freeBuffer` and exactly one read —
whether the decode succeeds or fails. -/
theorem C3_release_exactly_once (eng : Engine) (t : TagLibTag) (f : TextField)
    (buf : List Nat) (h : eng.readText t.tag f = some buf) :
    ∃ res tr, TagLibTag.readTextField eng t f = some (res, tr) ∧
      tr.count EngineCall.freeBuffer = 1 ∧
      tr.count (EngineCall.tagReadText f) = 1 ∧
      TagLibTag.title eng t = TagLibTag.readTextField eng t TextField.title ∧
      TagLibTag.artist eng t = TagLibTag.readTextField eng t TextField.artist ∧
      TagLibTag.album eng t = TagLibTag.readTextField eng t TextField.album ∧
      TagLibTag.commentField eng t = TagLibTag.readTextField eng t TextField.fieldComment ∧
      TagLibTag.genre eng t = TagLibTag.readTextField eng t TextField.genre := by
  refine ⟨(read_and_parse buf).1, EngineCall.tagReadText f :: (read_and_parse buf).2,
    ?_, ?_, ?_, rfl, rfl, rfl, rfl, rfl⟩
  · rw [TagLibTag.readTextField, h]
    rfl
  · rw [read_and_parse]
    simp
  · rw [read_and_parse]
    simp

/-- Witness for C3 at a concrete engine: the accessor's trace frees the
returned buffer exactly once. -/
theorem C3_witness :
    ∃ res tr, TagLibTag.readTextField engC3 ⟨3⟩ TextField.title = some (res, tr) ∧
      tr.count EngineCall.freeBuffer = 1 ∧
      tr.count (EngineCall.tagReadText TextField.title) = 1 ∧
      TagLibTag.title engC3 ⟨3⟩ = TagLibTag.readTextField engC3 ⟨3⟩ TextField.title ∧
      TagLibTag.artist engC3 ⟨3⟩ = TagLibTag.readTextField engC3 ⟨3⟩ TextField.artist ∧
      TagLibTag.album engC3 ⟨3⟩ = TagLibTag.readTextField engC3 ⟨3⟩ TextField.album ∧
      TagLibTag.commentField engC3 ⟨3⟩ =
        TagLibTag.readTextField engC3 ⟨3⟩ TextField.fieldComment ∧
      TagLibTag.genre engC3 ⟨3⟩ = TagLibTag.readTextField engC3 ⟨3⟩ TextField.genre :=
  C3_release_exactly_once engC3 ⟨3⟩ TextField.title [104, 0] rfl

/-- Claim C10: the string read accessors pass the engine's buffer pointer to
`CStr::from_ptr` with no null check; under the unchecked precondition that
the engine returns a non-null, sentinel-terminated buffer, the accessor is
defined and total: it frees the buffer exactly once and returns either the
decoded text of the bytes before the terminator or a decode error.  (A null
return — `none` — is outside the precondition and modelled as an undefined
result.) -/
theorem C10_nonnull_precondition_total (eng : Engine) (t : TagLibTag) (f : TextField)
    (buf : List Nat) (h : eng.readText t.tag f = some buf) (h0 : 0 ∈ buf) :
    TagLibTag.readTextField eng t f =
      some ((read_and_parse buf).1, EngineCall.tagReadText f :: (read_and_parse buf).2) ∧
    (read_and_parse buf).1 = cstrToStr (cstrBytes buf) ∧
    (read_and_parse buf).2.count EngineCall.freeBuffer = 1 ∧
    ((∃ s, (read_and_parse buf).1 = Except.ok s) ∨
      (∃ e, (read_and_parse buf).1 = Except.error e)) := by
  refine ⟨?_, rfl, ?_, ?_⟩
  · rw [TagLibTag.readTextField, h]
    rfl
  · rw [read_and_parse]
    simp
  · cases hr : (read_and_parse buf).1 with
    | ok s => exact Or.inl ⟨s, rfl⟩
    | error e => exact Or.inr ⟨e, rfl⟩

/-- Witness for C10 at a concrete engine returning a non-null,
invalidly-encoded buffer: the accessor still yields a defined result. -/
theorem C10_witness :
    TagLibTag.readTextField engC10 ⟨3⟩ TextField.genre =
      some ((read_and_parse [0xFF, 0]).1,
        EngineCall.tagReadText TextField.genre :: (read_and_parse [0xFF, 0]).2) ∧
    (read_and_parse [0xFF, 0]).1 = cstrToStr (cstrBytes [0xFF, 0]) ∧
    (read_and_parse [0xFF, 0]).2.count EngineCall.freeBuffer = 1 ∧
    ((∃ s, (read_and_parse [0xFF, 0]).1 = Except.ok s) ∨
      (∃ e, (read_and_parse [0xFF, 0]).1 = Except.error e)) :=
  C10_nonnull_precondition_total engC10 ⟨3⟩ TextField.genre [0xFF, 0] rfl (by decide)

/-- Claim C7: every text setter, on input containing an interior NUL,
returns the typed `NulError` and performs no engine call, leaving the
engine-held field store unchanged. -/
theorem C7_setter_nul_no_engine_call (f : TextField) (value : String) (st : TagState)
    (h : 0 ∈ utf8Encode value.data) :
    ∃ e, TagLibTag.setTextField f value st = (Except.error e, st, []) := by
  cases he : (utf8Encode value.data).findIdx? (fun b => b == 0) with
  | none =>
    exfalso
    rw [List.findIdx?_eq_none_iff] at he
    exact absurd (he 0 h) (by simp)
  | some i =>
    refine ⟨⟨i⟩, ?_⟩
    rw [TagLibTag.setTextField, cstringNew, cstringNewBytes, he]

/-- Witness for C7: setting a genre containing an interior NUL fails with
`NulError` and performs no engine call. -/
theorem C7_witness :
    ∃ e, TagLibTag.setTextField TextField.genre "a\x00b" emptyTagState =
      (Except.error e, emptyTagState, []) :=
  C7_setter_nul_no_engine_call TextField.genre "a\x00b" emptyTagState (by decide)

/-- Claim C4: for every text field and every value whose UTF-8 encoding is
free of embedded NUL terminators, writing the value and then reading the
same field back through the engine returns `Ok(value)`: the write-then-read
round trip is the identity on terminator-free text. -/
theorem C4_write_read_roundtrip (f : TextField) (value : String) (st : TagState)
    (h : 0 ∉ utf8Encode value.data) :
    (TagLibTag.setTextField f value st).1 = Except.ok () ∧
    (TagLibTag.getTextField f (TagLibTag.setTextField f value st).2.1).1 =
      Except.ok value := by
  have hc : cstringNew value = Except.ok (utf8Encode value.data) := by
    rw [cstringNew]
    exact cstringNewBytes_ok _ h
  constructor
  · rw [TagLibTag.setTextField, hc]
  · rw [TagLibTag.setTextField, hc]
    show (TagLibTag.getTextField f (engineWriteText st f (utf8Encode value.data))).1 =
      Except.ok value
    rw [TagLibTag.getTextField]
    show (read_and_parse (engineReadText (engineWriteText st f (utf8Encode value.data)) f)).1 =
      Except.ok value
    rw [engineReadText, engineWriteText]
    show (read_and_parse ((if f = f then utf8Encode value.data else st f) ++ [0])).1 =
      Except.ok value
    rw [if_pos rfl, read_and_parse]
    show cstrToStr (cstrBytes (utf8Encode value.data ++ [0])) = Except.ok value
    rw [cstrBytes, takeWhile_append_zero _ h, cstrToStr_encode]

/-- Witness for C4: the round trip at the concrete value "hi". -/
theorem C4_witness :
    (TagLibTag.setTextField TextField.title "hi" emptyTagState).1 = Except.ok () ∧
    (TagLibTag.getTextField TextField.title
      (TagLibTag.setTextField TextField.title "hi" emptyTagState).2.1).1 =
      Except.ok "hi" :=
  C4_write_read_roundtrip TextField.title "hi" emptyTagState (by decide)

/-- Claim C8: `TagLibFile::new` fails with `PathAsString` when the path is
not valid text, and with `NullPathString` (carrying the NUL position) when
the path text contains an embedded terminator; in both cases it returns
before any engine call is made (empty trace), so no file resource is
opened. -/
theorem C8_path_errors_before_engine (eng : Engine) (path : List Nat) :
    ((utf8Decode path).isSome = false →
      TagLibFile.new eng path = (Except.error FileError.PathAsString, [])) ∧
    (∀ i, (utf8Decode path).isSome = true →
      path.findIdx? (fun b => b == 0) = some i →
      TagLibFile.new eng path = (Except.error (FileError.NullPathString ⟨i⟩), [])) := by
  constructor
  · intro hd
    rw [TagLibFile.new, if_neg (by simp [hd])]
  · intro i hd hi
    rw [TagLibFile.new, if_pos (by simp [hd]), cstringNewBytes, hi]

/-- Witness for C8: a non-UTF-8 path fails with `PathAsString`; a path with
an embedded NUL at index 1 fails with `NullPathString` at position 1; both
with an empty engine-call trace. -/
theorem C8_witness :
    TagLibFile.new engC8 [0xFF] = (Except.error FileError.PathAsString, []) ∧
    TagLibFile.new engC8 [97, 0] =
      (Except.error (FileError.NullPathString ⟨1⟩), []) :=
  ⟨(C8_path_errors_before_engine engC8 [0xFF]).1 (by decide),
   (C8_path_errors_before_engine engC8 [97, 0]).2 1 (by decide) (by decide)⟩

/-- Claim C2, counterexample: the claim says the string-ownership mode is
configured exactly once at process start and that no per-open call re-sets
it; but the trace of a single `TagLibFile::new` call contains the
`taglib_set_string_management_enabled(false)` call — every open re-sets the
process-wide mode. -/
theorem C2_counterexample_set_per_open :
    EngineCall.setStringManagement false ∈ (TagLibFile.new engC2 [97]).2 := by
  decide

/-- Claim C2 as amended: the engine's string-ownership mode is set to
caller-manages at the start of every open call — before the engine open,
inside `TagLibFile::new` — rather than once at process start; no open emits
a second such call, and the mode is never set to any other value. -/
theorem C2_amended_set_once_per_open (eng : Engine) (path : List Nat) :
    (TagLibFile.new eng path).2 = [] ∨
    ∃ rest, (TagLibFile.new eng path).2 = EngineCall.setStringManagement false :: rest ∧
      ∀ b : Bool, EngineCall.setStringManagement b ∉ rest := by
  rw [TagLibFile.new]
  by_cases hd : (utf8Decode path).isSome
  · rw [if_pos hd]
    cases hcs : cstringNewBytes path with
    | error e => left; rfl
    | ok cs =>
      dsimp only
      cases ho : eng.openFile cs with
      | none =>
        right
        refine ⟨[EngineCall.fileNew cs], rfl, ?_⟩
        intro b
        simp
      | some fp =>
        dsimp only
        by_cases hv : eng.isValidResult fp = 0
        · rw [if_pos hv]
          right
          refine ⟨[EngineCall.fileNew cs, EngineCall.fileIsValid fp], rfl, ?_⟩
          intro b
          simp
        · rw [if_neg hv]
          right
          refine ⟨[EngineCall.fileNew cs, EngineCall.fileIsValid fp,
            EngineCall.fileTag fp], rfl, ?_⟩
          intro b
          simp
  · rw [if_neg hd]
    left
    rfl

/-- Claim C1 (behaviour at the failing input): when the engine open succeeds
(handle 7) but the validity check reports 0, `TagLibFile::new` returns
`InvalidTagFile`, and its engine-call trace contains no `fileFree` — the
partially-opened file resource is NOT released before returning (and no
`TagLibFile` was constructed, so `Drop` never runs on it): the handle
leaks, contrary to the claim. -/
theorem C1_invalid_format_leaks_handle :
    (TagLibFile.new engC1 [97]).1 = Except.error FileError.InvalidTagFile ∧
    (TagLibFile.new engC1 [97]).2 =
      [EngineCall.setStringManagement false, EngineCall.fileNew [97],
        EngineCall.fileIsValid 7] ∧
    ∀ h, EngineCall.fileFree h ∉ (TagLibFile.new engC1 [97]).2 := by
  refine ⟨rfl, rfl, ?_⟩
  intro h
  rw [show (TagLibFile.new engC1 [97]).2 =
    [EngineCall.setStringManagement false, EngineCall.fileNew [97],
      EngineCall.fileIsValid 7] from rfl]
  simp

end TagLibRs
